import Mathlib

/-!
Verification of the Skylens Cesium-submission backend (`src/api/main.py`)
against its natural-language specification.

Shallow embedding notes:
* Python handlers that may raise `HTTPException` are modelled as functions
  into `Except HTTPException _`; a handler body with no `raise` is a total
  function into its response type.
* FastAPI query-parameter binding for `get_notam_answer(q: str,
  icao: str = "EGLL", k: int = 5)` is modelled by `bindNotamParams`:
  `q` is required, `icao` defaults to `"EGLL"`, `k` defaults to `5` and a
  supplied raw value must parse as an integer; FastAPI declares no range
  constraint on `k`, so none is modelled.
* JSON numeric values (`speed`, match `score`) are modelled as rationals.
  The clamping `max(0.0, min(1000.0, s))` returns one of its arguments and
  performs no rounding, so the rational model agrees with IEEE float
  evaluation on all finite inputs.
* Python string truthiness (`if not request.target`) is modelled by
  `pyTruthy`: `None` and the empty string are falsy.
-/

/-- Raised (and caught) HTTP errors: `fastapi.HTTPException(status_code, detail)`. -/
structure HTTPException where
  status_code : Nat
  detail : String
deriving Repr, DecidableEq

/-- Pydantic model `IntentRequest` from `src/api/main.py`. -/
structure IntentRequest where
  action : String
  target : Option String
  speed : Option Rat
deriving Repr, DecidableEq

/-- The `mapped` dict built by `post_intent`: keys `"target"` and `"speed"`. -/
structure MappedIntent where
  target : Option String
  speed : Option Rat
deriving Repr, DecidableEq

/-- Pydantic model `IntentResponse` from `src/api/main.py`. -/
structure IntentResponse where
  ok : Bool
  action : String
  mapped : MappedIntent
deriving Repr, DecidableEq

/-- One element of the `matches` list of `NotamAnswer`: the dict literal
`{"id": ..., "icao": ..., "text": ..., "score": ...}` built in
`get_notam_answer`. -/
structure NotamMatch where
  id : String
  icao : String
  text : String
  score : Rat
deriving Repr, DecidableEq

/-- Pydantic model `NotamAnswer` from `src/api/main.py`. -/
structure NotamAnswer where
  answer : String
  citations : List String
  «matches» : List NotamMatch
  provider : String
deriving Repr, DecidableEq

/-- Python truthiness of an optional string: `None` and `""` are falsy. -/
def pyTruthy : Option String → Bool
  | none => false
  | some s => !s.isEmpty

/-- `valid_actions` list from the body of `post_intent`. -/
def valid_actions : List String := ["fly_to", "orbit", "follow", "chase", "set_layer"]

/-- The `try`-block body of `post_intent` (`src/api/main.py` lines 78-109):
action validation, target normalisation/validation, speed clamping, and
response construction. `raise HTTPException(...)` is an `.error`. -/
def post_intent_body (request : IntentRequest) : Except HTTPException IntentResponse :=
  if request.action ∉ valid_actions then
    .error { status_code := 422, detail := "Invalid action: " ++ request.action }
  else
    match
      (if request.action ∈ ["fly_to", "orbit"] then
        -- Only EGLL supported in demo
        if ¬ pyTruthy request.target ∨ (request.target.getD "").toUpper ≠ "EGLL" then
          Except.ok (some "EGLL")
        else
          Except.ok request.target
      else if request.action = "set_layer" then
        -- Validate layer targets
        if ¬ pyTruthy request.target ∨ ¬ (request.target.getD "").startsWith "buildings:" then
          Except.error { status_code := 400,
                         detail := "set_layer requires target like 'buildings:on'" }
        else
          Except.ok (some ((request.target.getD "").toLower))
      else
        Except.ok request.target) with
    | .error e => .error e
    | .ok mapped_target =>
      .ok { ok := true
            action := request.action
            mapped := { target := mapped_target
                        speed := request.speed.map fun s => max 0 (min 1000 s) } }

/-- Handler `post_intent` (`src/api/main.py` lines 67-113).  The body runs
inside `try: ... except Exception:`; since `HTTPException` is a subclass of
`Exception`, any `HTTPException` raised in the body is caught and replaced
by `HTTPException(500, "Intent processing failed")`. -/
def post_intent (request : IntentRequest) : Except HTTPException IntentResponse :=
  match post_intent_body request with
  | .ok resp => .ok resp
  | .error _ => .error { status_code := 500, detail := "Intent processing failed" }

/-- Handler `get_notam_answer` (`src/api/main.py` lines 166-190).  The body
has no conditional and no `raise`: it returns one fixed demo `NotamAnswer`
for every `(q, icao, k)`. -/
def get_notam_answer (q : String) (icao : String) (k : Int) : NotamAnswer :=
  { answer := "Demo response: No active runway closures reported for London Heathrow at this time. Standard operations are in effect."
    citations := ["EGLL-2025-001"]
    «matches» := [{ id := "EGLL-2025-001", icao := "EGLL",
                    text := "Demo NOTAM: Standard runway operations in effect",
                    score := 0.85 }]
    provider := "demo" }

/-- A raw HTTP request to `/ai/notam`: each query parameter is either
absent or a raw string. -/
structure NotamRawRequest where
  q : Option String
  icao : Option String
  k : Option String
deriving Repr, DecidableEq

/-- FastAPI request-validation failure (surfaced to the caller as a 422
client error). -/
inductive RequestValidationError where
  | missingRequired (field : String)
  | malformedInt (field : String) (raw : String)
deriving Repr, DecidableEq

/-- Accumulator loop of `parseInt?` over the decimal digits. -/
def parseDigitsAux : List Char → Nat → Option Nat
  | [], acc => some acc
  | c :: cs, acc => if c.isDigit then parseDigitsAux cs (acc * 10 + (c.toNat - 48)) else none

/-- Nonempty run of decimal digits as a natural number. -/
def parseNat? : List Char → Option Nat
  | [] => none
  | c :: cs => parseDigitsAux (c :: cs) 0

/-- Decimal integer parsing of a raw query-parameter string: an optional
leading minus sign followed by one or more ASCII digits (models the
framework's integer coercion of the raw `k` parameter). -/
def parseInt? (s : String) : Option Int :=
  match s.data with
  | '-' :: cs => (parseNat? cs).map fun n => -(n : Int)
  | cs => (parseNat? cs).map fun n => (n : Int)

/-- FastAPI query-parameter binding for the declared signature
`get_notam_answer(q: str, icao: str = "EGLL", k: int = 5)`: `q` is
required, `icao` defaults to `"EGLL"`, `k` defaults to `5` and must parse
as an integer when supplied.  No range constraint on `k` is declared in
the source, so none is checked. -/
def bindNotamParams (r : NotamRawRequest) : Except RequestValidationError (String × String × Int) :=
  match r.q with
  | none => .error (.missingRequired "q")
  | some q =>
    match r.k with
    | none => .ok (q, r.icao.getD "EGLL", 5)
    | some s =>
      match parseInt? s with
      | none => .error (.malformedInt "k" s)
      | some n => .ok (q, r.icao.getD "EGLL", n)

/-- The `/ai/notam` endpoint as seen by an HTTP caller: parameter binding
followed by the handler. -/
def notam_endpoint (r : NotamRawRequest) : Except RequestValidationError NotamAnswer :=
  match bindNotamParams r with
  | .error e => .error e
  | .ok (q, icao, k) => .ok (get_notam_answer q icao k)

/-- Claim C1: for every input triple (question `q`, airport `icao`, count
`k`) accepted by parameter binding, the NOTAM endpoint returns a
well-formed `NotamAnswer` record (answer, citations, matches, provider)
and surfaces no error to the caller. -/
theorem notam_endpoint_no_error (r : NotamRawRequest) (q icao : String) (k : Int)
    (h : bindNotamParams r = .ok (q, icao, k)) :
    notam_endpoint r = .ok (get_notam_answer q icao k) := by
  unfold notam_endpoint
  rw [h]

/-- Witness for C1 at a concrete request. -/
theorem notam_endpoint_no_error_witness :
    bindNotamParams ⟨some "Any runway closures at Heathrow?", some "EGLL", some "5"⟩ =
      .ok ("Any runway closures at Heathrow?", "EGLL", 5) ∧
    notam_endpoint ⟨some "Any runway closures at Heathrow?", some "EGLL", some "5"⟩ =
      .ok (get_notam_answer "Any runway closures at Heathrow?" "EGLL" 5) :=
  ⟨rfl, notam_endpoint_no_error _ _ _ _ rfl⟩

/-- Claim C2: every identifier in the `citations` list of a returned
answer appears as the `id` of some element of its `matches` list. -/
theorem notam_citations_in_matches (q icao : String) (k : Int) (c : String)
    (hc : c ∈ (get_notam_answer q icao k).citations) :
    ∃ m ∈ (get_notam_answer q icao k).«matches», m.id = c := by
  simp only [get_notam_answer, List.mem_singleton] at hc
  exact ⟨_, List.mem_singleton_self _, hc.symm⟩

/-- Witness for C2 at a concrete request and citation. -/
theorem notam_citations_in_matches_witness :
    "EGLL-2025-001" ∈ (get_notam_answer "runway closures" "EGLL" 5).citations ∧
    ∃ m ∈ (get_notam_answer "runway closures" "EGLL" 5).«matches», m.id = "EGLL-2025-001" :=
  ⟨by simp [get_notam_answer],
   notam_citations_in_matches "runway closures" "EGLL" 5 "EGLL-2025-001"
     (by simp [get_notam_answer])⟩

/-- Claim C3 (counterexample): for the unsupported airport code "ZZZZ"
the handler does not return an empty match sequence — it returns the
fixed demo match. -/
theorem notam_zzzz_counterexample :
    (get_notam_answer "Are there any runway closures?" "ZZZZ" 5).«matches» ≠ [] := by
  simp [get_notam_answer]

/-- Claim C3 (amended): for airport code "ZZZZ" and any question and `k`,
the handler propagates no exception and returns the fixed demo response —
a single demo match, the demo answer text, and provider "demo" — rather
than an empty match sequence. -/
theorem notam_zzzz_demo_behavior (q : String) (k : Int) :
    get_notam_answer q "ZZZZ" k =
      { answer := "Demo response: No active runway closures reported for London Heathrow at this time. Standard operations are in effect."
        citations := ["EGLL-2025-001"]
        «matches» := [{ id := "EGLL-2025-001", icao := "EGLL",
                        text := "Demo NOTAM: Standard runway operations in effect",
                        score := 0.85 }]
        provider := "demo" } := rfl

/-- Claim C4 (counterexample): at k = 0 the returned match sequence has
length 1, violating the claimed bound length ≤ k. -/
theorem notam_k_zero_counterexample :
    ¬ (((get_notam_answer "runway closures" "EGLL" 0).«matches».length : Int) ≤ 0) := by
  simp [get_notam_answer]

/-- Claim C4 (amended): for every query the handler returns exactly the
single demo match (so no duplicates and no padding, and it is the whole
available demo match set); consequently the bound length ≤ k holds iff
k ≥ 1, and fails for k ≤ 0 since the demo response never truncates. -/
theorem notam_matches_exact_demo (q icao : String) (k : Int) :
    (get_notam_answer q icao k).«matches» =
      [{ id := "EGLL-2025-001", icao := "EGLL",
         text := "Demo NOTAM: Standard runway operations in effect", score := 0.85 }] ∧
    (get_notam_answer q icao k).«matches».Nodup ∧
    ((((get_notam_answer q icao k).«matches».length : Int) ≤ k) ↔ 1 ≤ k) := by
  refine ⟨rfl, ?_, ?_⟩
  · simp [get_notam_answer]
  · simp [get_notam_answer]

/-- Claim C5: the NOTAM handler is deterministic — two invocations with
equal inputs produce identical answer text, citations, and matches. -/
theorem notam_deterministic (q1 icao1 : String) (k1 : Int) (q2 icao2 : String) (k2 : Int)
    (hq : q1 = q2) (hicao : icao1 = icao2) (hk : k1 = k2) :
    (get_notam_answer q1 icao1 k1).answer = (get_notam_answer q2 icao2 k2).answer ∧
    (get_notam_answer q1 icao1 k1).citations = (get_notam_answer q2 icao2 k2).citations ∧
    (get_notam_answer q1 icao1 k1).«matches» = (get_notam_answer q2 icao2 k2).«matches» := by
  subst hq; subst hicao; subst hk
  exact ⟨rfl, rfl, rfl⟩

/-- Witness for C5 at a concrete repeated input. -/
theorem notam_deterministic_witness :
    (get_notam_answer "a" "EGLL" 5).answer = (get_notam_answer "a" "EGLL" 5).answer ∧
    (get_notam_answer "a" "EGLL" 5).citations = (get_notam_answer "a" "EGLL" 5).citations ∧
    (get_notam_answer "a" "EGLL" 5).«matches» = (get_notam_answer "a" "EGLL" 5).«matches» :=
  notam_deterministic "a" "EGLL" 5 "a" "EGLL" 5 rfl rfl rfl

/-- Claim C6: the provider field of every returned answer is one of
"local", "azure", "local-fallback", "demo". -/
theorem notam_provider_in_allowed (q icao : String) (k : Int) :
    (get_notam_answer q icao k).provider ∈ ["local", "azure", "local-fallback", "demo"] := by
  simp [get_notam_answer]

/-- Claim C7: an omitted airport code binds to "EGLL" and an omitted `k`
binds to 5, while an omitted question is rejected regardless of the other
parameters. -/
theorem notam_param_defaults (q : String) (io ko : Option String) :
    bindNotamParams ⟨some q, none, none⟩ = .ok (q, "EGLL", 5) ∧
    bindNotamParams ⟨none, io, ko⟩ = .error (.missingRequired "q") :=
  ⟨rfl, rfl⟩

/-- Claim C8 (counterexample): k = 0 lies outside the range 1-20, yet the
request is accepted and answered rather than rejected as a client error —
the declared signature carries no range constraint. -/
theorem notam_out_of_range_k_accepted :
    ¬ (1 ≤ (0 : Int) ∧ (0 : Int) ≤ 20) ∧
    notam_endpoint ⟨some "runway closures", some "EGLL", some "0"⟩ =
      .ok (get_notam_answer "runway closures" "EGLL" 0) :=
  ⟨by decide, rfl⟩

/-- Claim C8 (amended): a request is rejected as a client error iff the
required question is missing or a supplied `k` fails to parse as an
integer; the value of a well-formed `k` — in range 1-20 or not — is never
a ground for rejection. -/
theorem notam_reject_iff_malformed (r : NotamRawRequest) :
    (∃ e, bindNotamParams r = .error e) ↔
      (r.q = none ∨ ∃ s, r.k = some s ∧ parseInt? s = none) := by
  obtain ⟨q, icao, k⟩ := r
  cases q with
  | none => simp [bindNotamParams]
  | some a =>
    cases k with
    | none => simp [bindNotamParams]
    | some s =>
      cases hs : parseInt? s with
      | none => simp [bindNotamParams, hs]
      | some n => simp [bindNotamParams, hs]

/-- Claim C9: every HTTP error raised inside the `post_intent` body is
caught by the handler's own except-Exception clause and surfaced as a 500;
in particular an action outside the valid set (raised as 422) and a
set_layer request whose target does not start with "buildings:" (raised
as 400) both yield a 500 response. -/
theorem post_intent_http_errors_become_500 (request : IntentRequest) :
    (∀ e, post_intent_body request = .error e →
      post_intent request = .error { status_code := 500, detail := "Intent processing failed" }) ∧
    (request.action ∉ valid_actions →
      post_intent request = .error { status_code := 500, detail := "Intent processing failed" }) ∧
    (request.action = "set_layer" →
      (∀ t, request.target = some t → ¬ t.startsWith "buildings:") →
      post_intent request = .error { status_code := 500, detail := "Intent processing failed" }) := by
  have herr : ∀ e, post_intent_body request = .error e →
      post_intent request = .error { status_code := 500, detail := "Intent processing failed" } := by
    intro e h
    unfold post_intent
    rw [h]
  refine ⟨herr, ?_, ?_⟩
  · intro h
    apply herr
    unfold post_intent_body
    rw [if_pos h]
  · intro hact htgt
    apply herr
    have hmem : ¬ request.action ∉ valid_actions := by
      rw [hact]; decide
    have hnotfly : request.action ∉ ["fly_to", "orbit"] := by
      rw [hact]; decide
    have hcond : (¬ pyTruthy request.target ∨
        ¬ (request.target.getD "").startsWith "buildings:") := by
      cases ht : request.target with
      | none => left; simp [pyTruthy]
      | some t => right; simpa [ht] using htgt t ht
    unfold post_intent_body
    rw [if_neg hmem, if_neg hnotfly, if_pos hact, if_pos hcond]

/-- Witness for C9 at a concrete invalid-action request. -/
theorem post_intent_http_errors_become_500_witness :
    ("teleport" ∉ valid_actions) ∧
    post_intent { action := "teleport", target := none, speed := none } =
      .error { status_code := 500, detail := "Intent processing failed" } :=
  ⟨by decide,
   (post_intent_http_errors_become_500 ⟨"teleport", none, none⟩).2.1 (by decide)⟩

/-- Claim C10: when a successful intent request carries a speed `s`, the
response's mapped speed is `max 0 (min 1000 s)`, which always lies in
[0, 1000]; when the request carries no speed, the mapped speed is `none`. -/
theorem post_intent_speed_clamped (request : IntentRequest) (resp : IntentResponse)
    (h : post_intent request = .ok resp) :
    (∀ s, request.speed = some s →
      resp.mapped.speed = some (max 0 (min 1000 s)) ∧
      (0 : Rat) ≤ max 0 (min 1000 s) ∧ max 0 (min 1000 s) ≤ 1000) ∧
    (request.speed = none → resp.mapped.speed = none) := by
  have hbody : resp.mapped.speed = request.speed.map fun s => max 0 (min 1000 s) := by
    unfold post_intent at h
    cases hb : post_intent_body request with
    | error e => rw [hb] at h; cases h
    | ok r0 =>
      rw [hb] at h
      have h2 : (Except.ok r0 : Except HTTPException IntentResponse) = .ok resp := h
      injection h2 with h3
      subst h3
      unfold post_intent_body at hb
      split at hb
      · cases hb
      · split at hb
        · cases hb
        · injection hb with hb2
          rw [← hb2]
  constructor
  · intro s hs
    refine ⟨?_, ?_, ?_⟩
    · rw [hbody, hs]; rfl
    · exact le_max_left 0 _
    · exact max_le (by norm_num) (min_le_left _ _)
  · intro hs
    rw [hbody, hs]; rfl

/-- Witness for C10 at a concrete request whose speed 1500 is clamped to
1000. -/
theorem post_intent_speed_clamped_witness :
    post_intent { action := "fly_to", target := none, speed := some 1500 } =
      .ok { ok := true, action := "fly_to",
            mapped := { target := some "EGLL", speed := some 1000 } } ∧
    ((∀ s, ({ action := "fly_to", target := none, speed := some 1500 } : IntentRequest).speed = some s →
      ({ ok := true, action := "fly_to",
         mapped := { target := some "EGLL", speed := some 1000 } } : IntentResponse).mapped.speed =
          some (max 0 (min 1000 s)) ∧
      (0 : Rat) ≤ max 0 (min 1000 s) ∧ max 0 (min 1000 s) ≤ 1000) ∧
     (({ action := "fly_to", target := none, speed := some 1500 } : IntentRequest).speed = none →
      ({ ok := true, action := "fly_to",
         mapped := { target := some "EGLL", speed := some 1000 } } : IntentResponse).mapped.speed =
          none)) := by
  have h : post_intent { action := "fly_to", target := none, speed := some 1500 } =
      .ok { ok := true, action := "fly_to",
            mapped := { target := some "EGLL", speed := some 1000 } } := rfl
  exact ⟨h, post_intent_speed_clamped _ _ h⟩
